import Mathlib

/-! Formal model of the XtermOrchestrator session-orchestration core.

The definitions below are a shallow embedding of the backend services of the
repository: the command interceptor of
`src/backend/services/OrchestratorCommands.js` (`_handleTerminalInput`), the
session registry / eviction / handoff logic of the `TerminalManager` service
(`src/unnamed/part_003`), and the message gateway of
`src/backend/services/MessageRouter.js`.  JavaScript strings are modelled as
`List Char` (for the interceptor, which slices character-wise) or `String`
(for the registry, which only compares identifiers); JS `Map`s are modelled as
insertion-ordered association lists; side effects (pty writes, process
spawn/kill, timer creation/cancellation, websocket sends) are modelled as an
explicit event list returned next to the new state.  Console and file-system
logging, which no claim observes, is elided.  Fallible external calls
(pty write / kill / spawn, which may throw in JS) take an explicit
success-oracle argument; the surrounding `try`/`catch` of the source is
reflected in how the embedding reacts to a failed call. -/

namespace XtermOrch

/-! JavaScript string primitives used by the embedded code.  `jsWhitespace` is
the set matched by the ECMAScript `\s` class and removed by
`String.prototype.trim` (WhiteSpace plus LineTerminator code points). -/

def jsWhitespace (c : Char) : Bool :=
  c == ' ' || c == '\t' || c == '\n' || c == '\r' || c == '\x0b' || c == '\x0c' ||
  c == '\u00A0' || c == '\u1680' || c == '\u2000' || c == '\u2001' || c == '\u2002' ||
  c == '\u2003' || c == '\u2004' || c == '\u2005' || c == '\u2006' || c == '\u2007' ||
  c == '\u2008' || c == '\u2009' || c == '\u200A' || c == '\u2028' || c == '\u2029' ||
  c == '\u202F' || c == '\u205F' || c == '\u3000' || c == '\uFEFF'

/-- Model of JS `String.prototype.trim`: drop `jsWhitespace` from both ends. -/
def jsTrim (s : List Char) : List Char :=
  ((s.dropWhile jsWhitespace).reverse.dropWhile jsWhitespace).reverse

/-- Model of JS `String.prototype.toLowerCase`.  `Char.toLower` lowers exactly
the ASCII uppercase letters; this agrees with JS on every comparison the
embedded code performs, since the directive vocabulary it is compared against
is pure ASCII and no non-ASCII code point lower-cases onto the letters used. -/
def jsToLower (s : List Char) : List Char := s.map Char.toLower

/-- Model of JS `str.split(' ')` (single-space separator, keeps empty pieces,
yields `[""]` on the empty string). -/
def splitOnSpaceAux : List Char → List Char → List (List Char)
  | [], acc => [acc.reverse]
  | c :: rest, acc =>
      if c == ' ' then acc.reverse :: splitOnSpaceAux rest []
      else splitOnSpaceAux rest (c :: acc)

def splitOnSpace (s : List Char) : List (List Char) := splitOnSpaceAux s []

/-- The classifier key the interceptor computes:
`fullCommand.split(' ')[0].toLowerCase()`. -/
def firstWordLower (line : List Char) : List Char :=
  jsToLower ((splitOnSpace line).headD [])

/-- Model of `data.includes('\r') || data.includes('\n')`. -/
def hasTerminator (s : List Char) : Bool :=
  s.any (fun c => c == '\r' || c == '\n')

namespace OrchestratorCommands

/-- The fixed directive table of `_handleTerminalInput`
(`OrchestratorCommands.js`, lines 975-978). -/
def orchestratorCommands : List (List Char) :=
  ["ohelp", "status", "spawn", "spawn-claude", "spawn-hidden",
   "send", "broadcast", "logs", "destroy", "handoff", "queue", "gordon"].map
    (fun s => s.toList)

/-- Result of one `_handleTerminalInput` invocation: the new per-connection
input buffer, the writes performed on the orchestrator pty (in order, only
those that succeeded), and the directive line handed to
`handleOrchestratorCommand`, if any. -/
structure InterceptResult where
  buffer : List Char
  ptyWrites : List (List Char)
  executed : Option (List Char)
deriving DecidableEq

def promptString : List Char := "[Orchestrator]$ ".toList

def crlf : List Char := "\r\n".toList

/-- Shallow embedding of `OrchestratorCommands._handleTerminalInput`
(`OrchestratorCommands.js`, lines 953-1015).  `wOk i` says whether the `i`-th
`ptyProcess.write` performed in this invocation succeeds; a failing write
throws in JS and the surrounding `try`/`catch` then skips the rest of the
handler.  Note that the source appends `data` to `this.inputBuffer` before any
of the branches run, so the backspace branch's `slice(0, -1)` removes the
just-appended backspace code, and all buffer mutations happen before the first
write. -/
def handleTerminalInputE (wOk : Nat → Bool) (buffer data : List Char) : InterceptResult :=
  let buf1 := buffer ++ data
  if hasTerminator data then
    let fullCommand := jsTrim buf1
    let firstWord := firstWordLower fullCommand
    if orchestratorCommands.contains firstWord then
      if wOk 0 then
        if wOk 1 then
          { buffer := [], ptyWrites := [fullCommand ++ crlf, promptString],
            executed := some fullCommand }
        else
          { buffer := [], ptyWrites := [fullCommand ++ crlf], executed := some fullCommand }
      else
        { buffer := [], ptyWrites := [], executed := none }
    else
      if wOk 0 then
        { buffer := [], ptyWrites := [data], executed := none }
      else
        { buffer := [], ptyWrites := [], executed := none }
  else if data == "\x7f".toList || data == "\x08".toList then
    let buf2 := if buf1.length > 0 then buf1.dropLast else buf1
    if wOk 0 then
      { buffer := buf2, ptyWrites := [data], executed := none }
    else
      { buffer := buf2, ptyWrites := [], executed := none }
  else
    if wOk 0 then
      { buffer := buf1, ptyWrites := [data], executed := none }
    else
      { buffer := buf1, ptyWrites := [], executed := none }

/-- The handler when every pty write succeeds (the common case). -/
def handleTerminalInput (buffer data : List Char) : InterceptResult :=
  handleTerminalInputE (fun _ => true) buffer data

/-- The classifier key the specification describes: the first
whitespace-delimited token of the line, lowercased.  (The source instead
splits on the single space character; see `firstWordLower`.) -/
def specFirstTokenLower (line : List Char) : List Char :=
  jsToLower ((line.dropWhile jsWhitespace).takeWhile (fun c => !(jsWhitespace c)))

end OrchestratorCommands

/-! Insertion-ordered association lists, the model of JS `Map` objects with
string keys (`Map.prototype.set` updates in place or appends, `delete`
removes, iteration follows insertion order). -/

def mapGet {α : Type} (m : List (String × α)) (k : String) : Option α :=
  match m with
  | [] => none
  | (k', v) :: rest => if k' = k then some v else mapGet rest k

def mapSet {α : Type} (m : List (String × α)) (k : String) (v : α) : List (String × α) :=
  match m with
  | [] => [(k, v)]
  | (k', v') :: rest => if k' = k then (k, v) :: rest else (k', v') :: mapSet rest k v

def mapDelete {α : Type} (m : List (String × α)) (k : String) : List (String × α) :=
  match m with
  | [] => []
  | (k', v') :: rest => if k' = k then rest else (k', v') :: mapDelete rest k

/-- JS `s || dflt` for a string value: the empty string is falsy. -/
def jsOr (s dflt : String) : String := if s = "" then dflt else s

/-- JS `x || dflt` for a possibly-absent string value. -/
def jsOrOpt (o : Option String) (dflt : String) : String :=
  match o with
  | some s => jsOr s dflt
  | none => dflt

/-- JS `n || dflt` for a possibly-absent number: `0` is falsy. -/
def jsOrNat (o : Option Nat) (dflt : Nat) : Nat :=
  match o with
  | some n => if n = 0 then dflt else n
  | none => dflt

/-- JS truthiness of a possibly-absent string field. -/
def optTruthy (o : Option String) : Bool :=
  match o with
  | some s => !(s == "")
  | none => false

namespace TerminalManager

/-- One entry of `this.terminals` (the session registry), as built by
`_createTerminalProcess`.  The opaque `ptyProcess` handle is modelled by a
numeric `pid`; timestamps are abstract `Nat`s. -/
structure TerminalInfo where
  terminalId : String
  instanceNumber : Nat
  pid : Nat
  agentName : String
  created : Nat
  lastActivity : Nat
  outputBuffer : List (Nat × String)
  isClaudeAgent : Bool
deriving DecidableEq

/-- The `context` object passed to `handoffToAgent` (`reason` / `message`
fields, both optional). -/
structure HandoffContext where
  reason : Option String
  message : Option String
deriving DecidableEq

/-- One entry pushed onto a handoff history by `handoffToAgent`. -/
structure Transition where
  timestamp : Nat
  fromAgent : String
  toAgent : String
  context : HandoffContext
  reason : String
deriving DecidableEq

/-- One entry of `this.agentHandoffs`. -/
structure HandoffInfo where
  currentAgent : String
  history : List Transition
deriving DecidableEq

/-- The mutable state of a `TerminalManager` instance: the three maps keyed by
terminal id, the capacity bound, and a counter producing fresh timer handles
(`setTimeout` return values). -/
structure TMState where
  terminals : List (String × TerminalInfo)
  terminalTimeouts : List (String × Nat)
  agentHandoffs : List (String × HandoffInfo)
  maxTerminals : Nat
  nextTimerId : Nat
deriving DecidableEq

/-- Websocket responses sent by the manager (payload details that no claim
observes are elided). -/
inductive WsMsg where
  | terminalCreated (msgId : String) (success : Bool) (terminalId : Option String)
      (error : Option String)
  | commandExecuted (msgId : String) (terminalId : String) (success : Bool)
      (error : Option String)
  | terminalDestroyed (msgId : String) (terminalId : String) (success : Bool)
      (detail : String)
  | terminalOutput (terminalId : String) (data : String)
  | terminalExit (terminalId : String) (exitCode : Int) (signal : Int)
  | terminalsList (msgId : String)
deriving DecidableEq

/-- Externally visible effects of a manager operation, in execution order. -/
inductive TMEvent where
  | spawnPty (pid : Nat)
  | killPty (pid : Nat)
  | ptyWrite (pid : Nat) (data : String)
  | ptyResize (pid : Nat) (cols rows : Nat)
  | setTimer (timerId : Nat) (ms : Nat)
  | clearTimer (timerId : Nat)
  | ws (m : WsMsg)
deriving DecidableEq

def isTimerEvent : TMEvent → Bool
  | .setTimer _ _ => true
  | .clearTimer _ => true
  | _ => false

/-- Embedding of `_resetTerminalTimeout` (part_003, lines 505-527): cancel a
pending timer for the id, then register a fresh 30-minute timer. -/
def resetTerminalTimeout (st : TMState) (terminalId : String) : TMState × List TMEvent :=
  let clearEvs := match mapGet st.terminalTimeouts terminalId with
    | some t => [TMEvent.clearTimer t]
    | none => []
  let newTimer := st.nextTimerId
  ({ st with
      terminalTimeouts := mapSet st.terminalTimeouts terminalId newTimer,
      nextTimerId := st.nextTimerId + 1 },
   clearEvs ++ [TMEvent.setTimer newTimer (30 * 60 * 1000)])

/-- The `terminal-create` message fields `createTerminal` consults. -/
structure CreateMsg where
  msgId : String
  agentName : Option String
  agentType : Option String
  mcpServers : Option (List String)
  systemPrompt : Option String
  maxTurns : Option Nat
  connectionType : Option String
  isOrchestrator : Bool
  directory : Option String
  project : Option String
  cwd : Option String
deriving DecidableEq

def capacityError (max : Nat) : String :=
  "Maximum number of terminals (" ++ toString max ++ ") reached"

/-- Working-directory resolution of `_createTerminalProcess` for non-Claude
terminals (part_003, lines 362-386). -/
def workingDir (msg : CreateMsg) (instanceNumber : Nat) : String :=
  if msg.isOrchestrator then "/"
  else if optTruthy msg.directory then msg.directory.getD ""
  else if optTruthy msg.project then "/projects/" ++ msg.project.getD ""
  else if optTruthy msg.cwd then msg.cwd.getD ""
  else "/workspaces/agent-" ++ toString instanceNumber

/-- Embedding of `createTerminal` + `_createTerminalProcess` (part_003, lines
39-77 and 320-456).  `newTid` stands for the generated `terminal-<uuid>` id,
`pid` for the pty handle `pty.spawn` would return, and `spawnOk` tells whether
`pty.spawn` succeeds (it throws otherwise and the `catch` in `createTerminal`
reports failure).  The capacity check runs before anything else: at capacity
the call returns after a single failure response, with no state change, no
spawn and no timer. -/
def createTerminal (st : TMState) (msg : CreateMsg) (newTid : String) (pid : Nat)
    (now : Nat) (spawnOk : Bool) : TMState × List TMEvent :=
  if st.maxTerminals ≤ st.terminals.length then
    (st, [TMEvent.ws (.terminalCreated msg.msgId false none
            (some (capacityError st.maxTerminals)))])
  else if optTruthy msg.connectionType && !(msg.connectionType == some ("local")) then
    (st, [TMEvent.ws (.terminalCreated msg.msgId false none
            (some ("Connection type \x27" ++ msg.connectionType.getD "" ++
                   "\x27 not implemented. Only local terminals are supported.")))])
  else
    let instanceNumber := st.terminals.length + 1
    let isClaudeAgent := msg.agentType == some ("claude") || msg.mcpServers.isSome
    if !spawnOk then
      (st, [TMEvent.ws (.terminalCreated msg.msgId false none (some ("spawn failed")))])
    else
      let defaultName :=
        if isClaudeAgent then "claude-agent-" ++ toString instanceNumber
        else "agent-" ++ toString instanceNumber
      let info : TerminalInfo :=
        { terminalId := newTid
          instanceNumber := instanceNumber
          pid := pid
          agentName := jsOrOpt msg.agentName defaultName
          created := now
          lastActivity := now
          outputBuffer := []
          isClaudeAgent := isClaudeAgent }
      let st1 := { st with terminals := mapSet st.terminals newTid info }
      let (st2, timerEvs) := resetTerminalTimeout st1 newTid
      let wd := workingDir msg instanceNumber
      let bannerEvs :=
        if !isClaudeAgent then
          [TMEvent.ptyWrite pid ("# Agent " ++ toString instanceNumber ++
             " Workspace: " ++ wd ++ "\r\n"),
           TMEvent.ptyWrite pid ("# You are restricted to: " ++ wd ++ "\r\n"),
           TMEvent.ptyWrite pid
             ("# Claude will not be able to access files outside this directory.\r\n"),
           TMEvent.ptyWrite pid ("# Type \x27claude\x27 to start AI assistance.\r\n"),
           TMEvent.ptyWrite pid ("# Terminal " ++ toString instanceNumber ++
             " ready. Isolated environment active.\r\n\r\n")]
        else []
      (st2, [TMEvent.spawnPty pid] ++ timerEvs ++ bannerEvs ++
        [TMEvent.ws (.terminalCreated msg.msgId true (some newTid) none)])

structure CommandMsg where
  msgId : String
  terminalId : String
  command : String
deriving DecidableEq

/-- Embedding of `handleTerminalCommand` (part_003, lines 84-120).  `writeOk`
tells whether `ptyProcess.write` succeeds; on success the idle timer is reset.
(The source appends the two characters `\` `r`, not a carriage return, to the
command: its string literal is `"\\r"`.) -/
def handleTerminalCommand (st : TMState) (msg : CommandMsg) (writeOk : Bool) :
    TMState × List TMEvent :=
  match mapGet st.terminals msg.terminalId with
  | none =>
      (st, [TMEvent.ws (.commandExecuted msg.msgId msg.terminalId false
              (some ("Terminal not found")))])
  | some info =>
      if writeOk then
        let (st1, timerEvs) := resetTerminalTimeout st msg.terminalId
        (st1, [TMEvent.ptyWrite info.pid (msg.command ++ "\\r"),
               TMEvent.ws (.commandExecuted msg.msgId msg.terminalId true none)] ++
              timerEvs)
      else
        (st, [TMEvent.ws (.commandExecuted msg.msgId msg.terminalId false
                (some ("write failed")))])

/-- Embedding of `handleTerminalInput` (part_003, lines 127-143): raw input is
written to the pty and, on success, the idle timer is reset. -/
def handleTerminalInput (st : TMState) (terminalId : String) (data : String)
    (writeOk : Bool) : TMState × List TMEvent :=
  match mapGet st.terminals terminalId with
  | none => (st, [])
  | some info =>
      if writeOk then
        let (st1, timerEvs) := resetTerminalTimeout st terminalId
        (st1, TMEvent.ptyWrite info.pid data :: timerEvs)
      else
        (st, [])

/-- Embedding of `handleTerminalResize` (part_003, lines 150-168). -/
def handleTerminalResize (st : TMState) (terminalId : String)
    (cols rows : Option Nat) : TMState × List TMEvent :=
  match mapGet st.terminals terminalId with
  | none => (st, [])
  | some info => (st, [TMEvent.ptyResize info.pid (jsOrNat cols 80) (jsOrNat rows 24)])

structure DestroyMsg where
  msgId : String
  terminalId : String
deriving DecidableEq

/-- Embedding of `handleDestroyTerminal` (part_003, lines 175-220).  An
unknown id yields a failure response and no state change.  Otherwise the pty
is killed and the registry entry, its pending timer and its handoff record are
all removed.  `killOk` tells whether `ptyProcess.kill()` succeeds: when it
throws, the `catch` reports failure and the clean-up after the kill is
skipped. -/
def handleDestroyTerminal (st : TMState) (msg : DestroyMsg) (killOk : Bool) :
    TMState × List TMEvent :=
  match mapGet st.terminals msg.terminalId with
  | none =>
      (st, [TMEvent.ws (.terminalDestroyed msg.msgId msg.terminalId false
              ("Terminal not found"))])
  | some info =>
      if killOk then
        let clearEvs := match mapGet st.terminalTimeouts msg.terminalId with
          | some t => [TMEvent.clearTimer t]
          | none => []
        ({ st with
            terminals := mapDelete st.terminals msg.terminalId,
            terminalTimeouts := mapDelete st.terminalTimeouts msg.terminalId,
            agentHandoffs := mapDelete st.agentHandoffs msg.terminalId },
         [TMEvent.killPty info.pid] ++ clearEvs ++
           [TMEvent.ws (.terminalDestroyed msg.msgId msg.terminalId true
              ("Terminal destroyed successfully"))])
      else
        (st, [TMEvent.ws (.terminalDestroyed msg.msgId msg.terminalId false
                ("kill failed"))])

/-- Embedding of `handleListTerminals` (part_003, lines 227-243): read-only. -/
def handleListTerminals (st : TMState) (msgId : String) : TMState × List TMEvent :=
  (st, [TMEvent.ws (.terminalsList msgId)])

/-- The result object `handoffToAgent` resolves with. -/
structure HandoffResult where
  terminalId : String
  previousAgent : String
  newAgent : String
  handoffTime : Nat
  context : HandoffContext
deriving DecidableEq

/-- Embedding of `handoffToAgent` (part_003, lines 251-301).  An unknown id
throws (modelled by `Except.error`) and changes nothing.  Otherwise a handoff
record is created on first use (current agent = the session's stored agent
name, `"bash"` if that is empty), one transition is appended, the record's
current agent and the session's agent name are updated, and a banner is
written into the terminal stream (the source decorates it with emoji glyphs,
elided here). -/
def handoffToAgent (st : TMState) (terminalId newAgentName : String)
    (context : HandoffContext) (now : Nat) :
    TMState × List TMEvent × Except String HandoffResult :=
  match mapGet st.terminals terminalId with
  | none => (st, [], .error ("Terminal " ++ terminalId ++ " not found for handoff"))
  | some info =>
      let base : HandoffInfo :=
        match mapGet st.agentHandoffs terminalId with
        | some h => h
        | none => { currentAgent := jsOr info.agentName ("bash"), history := [] }
      let previousAgent := base.currentAgent
      let tr : Transition :=
        { timestamp := now
          fromAgent := previousAgent
          toAgent := newAgentName
          context := context
          reason := jsOrOpt context.reason ("Manual handoff") }
      let newRecord : HandoffInfo :=
        { currentAgent := newAgentName, history := base.history ++ [tr] }
      let info2 : TerminalInfo := { info with agentName := newAgentName }
      let st1 := { st with
        agentHandoffs := mapSet st.agentHandoffs terminalId newRecord,
        terminals := mapSet st.terminals terminalId info2 }
      let msgEvs := match context.message with
        | some m => if m = "" then []
            else [TMEvent.ptyWrite info.pid ("Context: " ++ m ++ "\r\n")]
        | none => []
      (st1,
       [TMEvent.ptyWrite info.pid
          ("\r\nAgent handoff: " ++ previousAgent ++ " → " ++ newAgentName ++ "\r\n")] ++
         msgEvs ++ [TMEvent.ptyWrite info.pid ("\r\n")],
       .ok { terminalId := terminalId, previousAgent := previousAgent,
             newAgent := newAgentName, handoffTime := now, context := context })

/-- Embedding of `getHandoffHistory` (part_003, lines 308-314). -/
def getHandoffHistory (st : TMState) (terminalId : String) : Option String × List Transition :=
  match mapGet st.agentHandoffs terminalId with
  | none => (none, [])
  | some h => (some h.currentAgent, h.history)

end TerminalManager

/-! Embedding of the regular-expression scan of `_monitorAgentOutput`
(part_003, line 565): `/handoff-to:(\w+)(?:\s+(.+))?/i` applied with
`String.prototype.match`, i.e. leftmost match, greedy quantifiers with
backtracking, `.` not matching line terminators, case-insensitive literal. -/

/-- ECMAScript `\w` (the regex is ASCII word characters). -/
def wordChar (c : Char) : Bool := c.isAlpha || c.isDigit || c == '_'

/-- ECMAScript LineTerminator code points, which `.` does not match. -/
def lineTerm (c : Char) : Bool :=
  c == '\n' || c == '\r' || c == '\u2028' || c == '\u2029'

/-- Case-insensitive match of one subject character against a lowercase ASCII
pattern character (`/i` without the `u` flag never folds a non-ASCII subject
character onto an ASCII pattern character). -/
def ciMatches (c p : Char) : Bool := c.toLower == p

def handoffLit : List Char := "handoff-to:".toList

/-- Case-insensitive literal-pattern test at the head of the subject. -/
def ciStartsWith : List Char → List Char → Bool
  | [], _ => true
  | _ :: _, [] => false
  | p :: ps, c :: cs => ciMatches c p && ciStartsWith ps cs

/-- Backtracking search for `\s+(.+)` applied to `rest`: try the longest
whitespace run first and shrink it until at least one `.`-matchable character
follows; the captured group is then the maximal run of non-terminator
characters.  `none` means the optional group does not participate. -/
def group2Aux : Nat → List Char → Option (List Char)
  | 0, _ => none
  | k + 1, rest =>
      match rest.drop (k + 1) with
      | [] => group2Aux k rest
      | c :: _ =>
          if lineTerm c then group2Aux k rest
          else some ((rest.drop (k + 1)).takeWhile (fun d => !(lineTerm d)))

def group2 (rest : List Char) : Option (List Char) :=
  group2Aux (rest.takeWhile jsWhitespace).length rest

/-- Try the whole pattern anchored at the head: the case-insensitive literal
`handoff-to:`, a nonempty greedy run of word characters (group 1), then the
optional `\s+(.+)` (group 2). -/
def matchHandoffAt (s : List Char) : Option (List Char × Option (List Char)) :=
  if ciStartsWith handoffLit s then
    let rest := s.drop handoffLit.length
    let name := rest.takeWhile wordChar
    if name.isEmpty then none
    else some (name, group2 (rest.drop name.length))
  else none

/-- Leftmost match of the handoff pattern in a chunk, as
`String.prototype.match` computes it. -/
def findHandoff : List Char → Option (List Char × Option (List Char))
  | [] => none
  | c :: cs =>
      match matchHandoffAt (c :: cs) with
      | some r => some r
      | none => findHandoff cs

namespace TerminalManager

/-- The handoff request `_monitorAgentOutput` extracts from one output chunk:
the captured agent name and the context message (`match[2] || "No context
provided"`), or `none` when the pattern does not occur. -/
def scanHandoffRequest (data : String) : Option (String × String) :=
  match findHandoff data.toList with
  | none => none
  | some (name, ctx) =>
      some (String.mk name,
        match ctx with
        | some m => jsOr (String.mk m) ("No context provided")
        | none => "No context provided")

/-- Embedding of the pty `data` handler installed by
`_setupTerminalEventHandlers` (part_003, lines 466-486) together with
`_monitorAgentOutput` (lines 560-579): scan the chunk for a handoff request
(the triggered `handoffToAgent` runs synchronously; a rejection is only
logged), forward the chunk to the owning client, append it to the bounded
output buffer (capacity 1000, oldest entry shifted off), and update
`lastActivity`.  The handler does not touch `terminalTimeouts`. -/
def onDataEvent (st : TMState) (terminalId : String) (data : String) (now : Nat) :
    TMState × List TMEvent :=
  let monitor := match scanHandoffRequest data with
    | some (name, m) =>
        let ctx : HandoffContext :=
          { reason := some ("Agent requested handoff"), message := some m }
        let r := handoffToAgent st terminalId name ctx now
        (r.1, r.2.1)
    | none => (st, [])
  let st1 := monitor.1
  let st2 := match mapGet st1.terminals terminalId with
    | some info =>
        let buf1 := info.outputBuffer ++ [(now, data)]
        let buf2 := if 1000 < buf1.length then buf1.drop 1 else buf1
        let info2 : TerminalInfo := { info with outputBuffer := buf2, lastActivity := now }
        { st1 with terminals := mapSet st1.terminals terminalId info2 }
    | none => st1
  (st2, monitor.2 ++ [TMEvent.ws (.terminalOutput terminalId data)])

/-- Embedding of the pty `onExit` handler (part_003, lines 489-498): notify
the client, then remove the registry entry, cancel and drop the pending
timer, and drop the handoff record. -/
def onExitEvent (st : TMState) (terminalId : String) (exitCode : Int) (signal : Int) :
    TMState × List TMEvent :=
  let clearEvs := match mapGet st.terminalTimeouts terminalId with
    | some t => [TMEvent.clearTimer t]
    | none => []
  ({ st with
      terminals := mapDelete st.terminals terminalId,
      terminalTimeouts := mapDelete st.terminalTimeouts terminalId,
      agentHandoffs := mapDelete st.agentHandoffs terminalId },
   [TMEvent.ws (.terminalExit terminalId exitCode signal)] ++ clearEvs)

/-- Embedding of the 30-minute timer callback created by
`_resetTerminalTimeout` (part_003, lines 513-524): if the session still
exists, kill its pty and remove the registry entry, the timer entry and the
handoff record. -/
def timeoutFire (st : TMState) (terminalId : String) : TMState × List TMEvent :=
  match mapGet st.terminals terminalId with
  | some info =>
      ({ st with
          terminals := mapDelete st.terminals terminalId,
          terminalTimeouts := mapDelete st.terminalTimeouts terminalId,
          agentHandoffs := mapDelete st.agentHandoffs terminalId },
       [TMEvent.killPty info.pid])
  | none => (st, [])

/-- The full interface through which `TerminalManager` state is ever mutated:
client-driven calls, the two pty event handlers, and the eviction timer
callback. -/
inductive TMOp where
  | create (msg : CreateMsg) (newTid : String) (pid : Nat) (now : Nat) (spawnOk : Bool)
  | command (msg : CommandMsg) (writeOk : Bool)
  | input (terminalId : String) (data : String) (writeOk : Bool)
  | resize (terminalId : String) (cols rows : Option Nat)
  | destroy (msg : DestroyMsg) (killOk : Bool)
  | listTerminals (msgId : String)
  | handoff (terminalId newAgentName : String) (context : HandoffContext) (now : Nat)
  | ptyData (terminalId : String) (data : String) (now : Nat)
  | ptyExit (terminalId : String) (exitCode : Int) (signal : Int)
  | evictionTimeout (terminalId : String)
deriving DecidableEq

def step (st : TMState) : TMOp → TMState × List TMEvent
  | .create msg newTid pid now spawnOk => createTerminal st msg newTid pid now spawnOk
  | .command msg writeOk => handleTerminalCommand st msg writeOk
  | .input terminalId data writeOk => handleTerminalInput st terminalId data writeOk
  | .resize terminalId cols rows => handleTerminalResize st terminalId cols rows
  | .destroy msg killOk => handleDestroyTerminal st msg killOk
  | .listTerminals msgId => handleListTerminals st msgId
  | .handoff terminalId a context now =>
      let r := handoffToAgent st terminalId a context now
      (r.1, r.2.1)
  | .ptyData terminalId data now => onDataEvent st terminalId data now
  | .ptyExit terminalId exitCode signal => onExitEvent st terminalId exitCode signal
  | .evictionTimeout terminalId => timeoutFire st terminalId

def isDestroyOp : TMOp → Bool
  | .destroy _ _ => true
  | _ => false

def isExitOp : TMOp → Bool
  | .ptyExit _ _ _ => true
  | _ => false

def isEvictionOp : TMOp → Bool
  | .evictionTimeout _ => true
  | _ => false

/-- Every key of the timer map and of the handoff map belongs to a live
registry entry ("no timer or handoff record outlives its registry entry"). -/
def ownedInv (st : TMState) : Prop :=
  ∀ k : String,
    ((mapGet st.terminalTimeouts k).isSome → (mapGet st.terminals k).isSome) ∧
    ((mapGet st.agentHandoffs k).isSome → (mapGet st.terminals k).isSome)

/-- The three maps have pairwise-distinct keys (true of every reachable state,
since ids are fresh uuids; JS `Map` keys are unique by construction). -/
def distinctKeys (st : TMState) : Prop :=
  (st.terminals.map Prod.fst).Nodup ∧
  (st.terminalTimeouts.map Prod.fst).Nodup ∧
  (st.agentHandoffs.map Prod.fst).Nodup

/-- The handoff record consulted and extended by `handoffToAgent`: the stored
record, or the lazily-created initial one (current agent = stored agent name,
`"bash"` if that is empty; no transitions). -/
def currentRecord (st : TMState) (terminalId : String) (info : TerminalInfo) : HandoffInfo :=
  match mapGet st.agentHandoffs terminalId with
  | some h => h
  | none => { currentAgent := jsOr info.agentName ("bash"), history := [] }

/-- What one `handoffToAgent` call does to a handoff record. -/
def extendRecord (h : HandoffInfo) : String × HandoffContext × Nat → HandoffInfo
  | (newAgentName, context, now) =>
      { currentAgent := newAgentName,
        history := h.history ++
          [{ timestamp := now
             fromAgent := h.currentAgent
             toAgent := newAgentName
             context := context
             reason := jsOrOpt context.reason ("Manual handoff") }] }

/-- State after a sequence of `handoffToAgent` calls on one session. -/
def runHandoffs (st : TMState) (terminalId : String) :
    List (String × HandoffContext × Nat) → TMState
  | [] => st
  | (a, c, t) :: rest =>
      runHandoffs (handoffToAgent st terminalId a c t).1 terminalId rest

end TerminalManager

namespace MessageRouter

/-- Behaviour of a registered handler on one message: it resolves after
emitting some responses, or it throws (the error is caught in `routeMessage`
and converted into an error response). -/
inductive HandlerB where
  | resolves (responses : List String)
  | throws (errMsg : String)
deriving DecidableEq

/-- Behaviour of one middleware on one message: it invokes its continuation,
returns without invoking it (halting the chain by design), or throws (caught
by `handleMessage`'s catch). -/
inductive MWB where
  | invokesNext
  | halts
  | throws
deriving DecidableEq

/-- Wire-level actions on the client socket.  `close` is never produced by the
router: no parse or dispatch failure terminates the connection. -/
inductive GWEvent where
  | sendError (error : String)
  | send (payload : String)
  | close
deriving DecidableEq

/-- Router state: one handler per message type (`registerHandler`, last
registration wins via `Map.set`) and the ordered middleware chain. -/
structure Router where
  handlers : List (String × HandlerB)
  middleware : List MWB
deriving DecidableEq

/-- Embedding of `routeMessage` (MessageRouter.js, lines 160-174). -/
def routeMessage (r : Router) (msgType : String) : List GWEvent :=
  match mapGet r.handlers msgType with
  | some (.resolves rs) => rs.map GWEvent.send
  | some (.throws e) =>
      [GWEvent.sendError ("Error processing " ++ msgType ++ ": " ++ e)]
  | none => [GWEvent.sendError ("Unknown message type: " ++ msgType)]

inductive ChainOutcome where
  | completed (evs : List GWEvent)
  | halted
  | threw
deriving DecidableEq

/-- The recursive `next` chain of `handleMessage` (lines 136-147): each
middleware either advances the chain, drops it, or throws; after the last one
the message is routed. -/
def runChain (mws : List MWB) (dispatch : List GWEvent) : ChainOutcome :=
  match mws with
  | [] => .completed dispatch
  | .invokesNext :: rest => runChain rest dispatch
  | .halts :: _ => .halted
  | .throws :: _ => .threw

/-- Embedding of `handleMessage` (MessageRouter.js, lines 129-153).  `parse`
models `JSON.parse` followed by the `.type` field access: `none` for a frame
that is not valid JSON, otherwise the message's type tag.  A parse failure
(or a middleware throw) is caught and answered with one structured error; the
router state is returned unchanged in every case and the connection is never
closed. -/
def handleMessage (parse : String → Option String) (r : Router) (raw : String) :
    Router × List GWEvent :=
  match parse raw with
  | none => (r, [GWEvent.sendError ("Invalid message format")])
  | some msgType =>
      match runChain r.middleware (routeMessage r msgType) with
      | .completed evs => (r, evs)
      | .halted => (r, [])
      | .threw => (r, [GWEvent.sendError ("Invalid message format")])

/-- Handling of a sequence of frames on one connection, threading the router
state through (`handleMessage` never changes it). -/
def handleFrames (parse : String → Option String) (r : Router) :
    List String → Router × List (List GWEvent)
  | [] => (r, [])
  | raw :: rest =>
      let (r1, evs) := handleMessage parse r raw
      let (r2, rest') := handleFrames parse r1 rest
      (r2, evs :: rest')

end MessageRouter

/-! Concrete fixtures used to instantiate the universally quantified claim
theorems. -/

namespace TerminalManager

def sampleInfo : TerminalInfo :=
  { terminalId := "t1", instanceNumber := 1, pid := 41, agentName := "alice",
    created := 0, lastActivity := 0, outputBuffer := [], isClaudeAgent := false }

/-- A manager owning one session `"t1"` with a pending timer `0`. -/
def sampleState : TMState :=
  { terminals := [("t1", sampleInfo)], terminalTimeouts := [("t1", 0)],
    agentHandoffs := [], maxTerminals := 99, nextTimerId := 1 }

/-- A fresh manager with capacity 1. -/
def emptyStateTM : TMState :=
  { terminals := [], terminalTimeouts := [], agentHandoffs := [],
    maxTerminals := 1, nextTimerId := 0 }

/-- A manager at capacity (one session, capacity 1). -/
def fullStateTM : TMState :=
  { terminals := [("t1", sampleInfo)], terminalTimeouts := [("t1", 0)],
    agentHandoffs := [], maxTerminals := 1, nextTimerId := 1 }

/-- Two handoff calls used to instantiate the handoff-history theorem. -/
def handoffCallsSample : List (String × HandoffContext × Nat) :=
  [("bob", { reason := none, message := none }, 1),
   ("carol", { reason := some ("review"), message := some ("go") }, 2)]

def sampleCreateMsg : CreateMsg :=
  { msgId := "m1", agentName := some ("worker"), agentType := none,
    mcpServers := none, systemPrompt := none, maxTurns := none,
    connectionType := some ("local"), isOrchestrator := false,
    directory := none, project := none, cwd := none }

end TerminalManager

namespace MessageRouter

/-- A parse oracle recognising exactly the frame `"good"`, of type `ping`. -/
def sampleParse : String → Option String :=
  fun s => if s == "good" then some ("ping") else none

/-- A router with no handlers and no middleware. -/
def sampleRouter : Router := { handlers := [], middleware := [] }

end MessageRouter

/-! Helper lemmas about the association-list model of JS `Map`. -/

theorem mapGet_mapSet_self {α : Type} (m : List (String × α)) (k : String) (v : α) :
    mapGet (mapSet m k v) k = some v := by
  induction m with
  | nil => simp [mapSet, mapGet]
  | cons p rest ih =>
      obtain ⟨k', v'⟩ := p
      by_cases h : k' = k
      · simp [mapSet, mapGet, h]
      · simp [mapSet, mapGet, h, ih]

theorem mapGet_mapSet_ne {α : Type} (m : List (String × α)) (k k' : String) (v : α)
    (h : k' ≠ k) : mapGet (mapSet m k v) k' = mapGet m k' := by
  induction m with
  | nil => simp [mapSet, mapGet, Ne.symm h]
  | cons p rest ih =>
      obtain ⟨k'', v''⟩ := p
      by_cases hk : k'' = k
      · subst hk
        simp [mapSet, mapGet, Ne.symm h]
      · simp [mapSet, mapGet, hk, ih]

theorem mapGet_mapDelete_ne {α : Type} (m : List (String × α)) (k k' : String)
    (h : k' ≠ k) : mapGet (mapDelete m k) k' = mapGet m k' := by
  induction m with
  | nil => simp [mapDelete]
  | cons p rest ih =>
      obtain ⟨k'', v''⟩ := p
      by_cases hk : k'' = k
      · subst hk
        simp [mapDelete, mapGet, Ne.symm h]
      · simp [mapDelete, mapGet, hk, ih]

theorem mapGet_eq_none_of_not_mem {α : Type} (m : List (String × α)) (k : String)
    (h : k ∉ m.map Prod.fst) : mapGet m k = none := by
  induction m with
  | nil => simp [mapGet]
  | cons p rest ih =>
      obtain ⟨k', v'⟩ := p
      rw [List.map_cons, List.mem_cons] at h
      push_neg at h
      simp [mapGet, Ne.symm h.1, ih h.2]

theorem mapGet_mapDelete_self {α : Type} (m : List (String × α)) (k : String)
    (h : (m.map Prod.fst).Nodup) : mapGet (mapDelete m k) k = none := by
  induction m with
  | nil => simp [mapDelete, mapGet]
  | cons p rest ih =>
      obtain ⟨k', v'⟩ := p
      rw [List.map_cons, List.nodup_cons] at h
      by_cases hk : k' = k
      · subst hk
        simpa [mapDelete] using mapGet_eq_none_of_not_mem rest k' h.1
      · simp [mapDelete, mapGet, hk, ih h.2]

theorem mapSet_eq_append {α : Type} (m : List (String × α)) (k : String) (v : α)
    (h : mapGet m k = none) : mapSet m k v = m ++ [(k, v)] := by
  induction m with
  | nil => simp [mapSet]
  | cons p rest ih =>
      obtain ⟨k', v'⟩ := p
      by_cases hk : k' = k
      · simp [mapGet, hk] at h
      · simp [mapGet, hk] at h
        simp [mapSet, hk, ih h]

/-! Claim theorems for the Command Interceptor. -/

/-- C1, counterexample: the claim classifies by the first
whitespace-delimited token of the assembled line, but the source classifies
by `split(' ')[0]`.  For the line `"status\tx"` (terminated by `"\r"`), the
first whitespace-delimited token is `status`, which is in the directive
vocabulary, yet the interceptor forwards the raw terminated line to the
process byte-for-byte and executes no directive. -/
theorem interceptor_whitespace_token_counterexample :
    OrchestratorCommands.orchestratorCommands.contains
      (OrchestratorCommands.specFirstTokenLower ("status\tx\r".toList)) = true ∧
    OrchestratorCommands.handleTerminalInput [] ("status\tx\r".toList) =
      { buffer := [], ptyWrites := ["status\tx\r".toList], executed := none } := by
  decide

/-- C1, amended: for every chunk containing a line terminator, if the first
space-delimited token of the trimmed assembled line, lowercased, is in the
interceptor's directive table, the terminated line is not forwarded to the
process: the handler writes exactly the echoed line plus a fresh prompt and
hands the line to the directive dispatcher; otherwise the raw terminated
chunk is forwarded to the process byte-for-byte, terminator included, and no
directive is executed. -/
theorem interceptor_directive_classification (buffer data : List Char)
    (hterm : hasTerminator data = true) :
    (OrchestratorCommands.orchestratorCommands.contains
        (firstWordLower (jsTrim (buffer ++ data))) = true →
      OrchestratorCommands.handleTerminalInput buffer data =
        { buffer := []
          ptyWrites := [jsTrim (buffer ++ data) ++ OrchestratorCommands.crlf,
                        OrchestratorCommands.promptString]
          executed := some (jsTrim (buffer ++ data)) }) ∧
    (OrchestratorCommands.orchestratorCommands.contains
        (firstWordLower (jsTrim (buffer ++ data))) = false →
      OrchestratorCommands.handleTerminalInput buffer data =
        { buffer := [], ptyWrites := [data], executed := none }) := by
  unfold OrchestratorCommands.handleTerminalInput OrchestratorCommands.handleTerminalInputE
  refine ⟨fun h => ?_, fun h => ?_⟩
  · have h' : firstWordLower (jsTrim (buffer ++ data)) ∈
        OrchestratorCommands.orchestratorCommands := by simpa using h
    simp [hterm, h']
  · have h' : firstWordLower (jsTrim (buffer ++ data)) ∉
        OrchestratorCommands.orchestratorCommands := by simpa using h
    simp [hterm, h']

/-- C1, witness: the single-chunk directive line `"status\r"` is intercepted:
echo plus prompt are written and `status` is dispatched. -/
theorem interceptor_directive_classification_witness :
    hasTerminator ("status\r".toList) = true ∧
    OrchestratorCommands.handleTerminalInput [] ("status\r".toList) =
      { buffer := []
        ptyWrites := ["status\r\n".toList, OrchestratorCommands.promptString]
        executed := some ("status".toList) } := by
  constructor
  · decide
  · rw [(interceptor_directive_classification [] ("status\r".toList) (by decide)).1 (by decide)]
    decide

/-- C8, code-bug evaluation: with `"ab"` buffered, a lone DEL chunk leaves
the buffer at `"ab"` — the source appends the chunk to the buffer before the
backspace branch runs, so `slice(0, -1)` pops the just-appended DEL instead
of the previously buffered `b`; the claim (and §4.5 of the specification)
require the buffer to become `"a"`. -/
theorem interceptor_backspace_divergence :
    OrchestratorCommands.handleTerminalInput ("ab".toList) ("\x7f".toList) =
      { buffer := "ab".toList, ptyWrites := ["\x7f".toList], executed := none } ∧
    ("ab".toList : List Char) ≠ "a".toList := by
  decide

/-- C10: whenever a chunk contains a carriage return or line feed, the
per-connection buffer is empty when the handler finishes, for every pattern
of pty-write failures — the buffer is cleared before the first write. -/
theorem interceptor_buffer_cleared_on_terminator (wOk : Nat → Bool)
    (buffer data : List Char) (hterm : hasTerminator data = true) :
    (OrchestratorCommands.handleTerminalInputE wOk buffer data).buffer = [] := by
  unfold OrchestratorCommands.handleTerminalInputE
  by_cases h1 : firstWordLower (jsTrim (buffer ++ data)) ∈
      OrchestratorCommands.orchestratorCommands <;>
    by_cases h2 : wOk 0 = true <;>
      by_cases h3 : wOk 1 = true <;>
        simp [hterm, h1, h2, h3]

/-- C10, witness: a terminated chunk on a failing pty still leaves the
buffer empty. -/
theorem interceptor_buffer_cleared_on_terminator_witness :
    hasTerminator ("x\r".toList) = true ∧
    (OrchestratorCommands.handleTerminalInputE (fun _ => false) ("ab".toList)
        ("x\r".toList)).buffer = [] :=
  ⟨by decide,
   interceptor_buffer_cleared_on_terminator (fun _ => false) ("ab".toList)
     ("x\r".toList) (by decide)⟩

namespace TerminalManager

/-- C2: below the configured maximum (and given a loadable profile: a local
connection, a fresh generated id and a successful spawn) `createTerminal`
adds a session and reports success; at the maximum, the call returns exactly
the original state with a single capacity-failure response — no entry is
added, no process spawned, no timer created. -/
theorem registry_capacity (st : TMState) (msg : CreateMsg) (newTid : String)
    (pid now : Nat) :
    (st.terminals.length < st.maxTerminals →
      (msg.connectionType = none ∨ msg.connectionType = some ("local")) →
      mapGet st.terminals newTid = none →
      (createTerminal st msg newTid pid now true).1.terminals.length
          = st.terminals.length + 1 ∧
      (mapGet (createTerminal st msg newTid pid now true).1.terminals newTid).isSome
          = true ∧
      TMEvent.ws (.terminalCreated msg.msgId true (some newTid) none)
          ∈ (createTerminal st msg newTid pid now true).2) ∧
    (st.maxTerminals ≤ st.terminals.length →
      ∀ spawnOk : Bool, createTerminal st msg newTid pid now spawnOk =
        (st, [TMEvent.ws (.terminalCreated msg.msgId false none
                (some (capacityError st.maxTerminals)))])) := by
  constructor
  · intro hlt hconn hfresh
    have hcap : ¬ st.maxTerminals ≤ st.terminals.length := by omega
    have hct : (optTruthy msg.connectionType &&
        !(msg.connectionType == some ("local"))) = false := by
      rcases hconn with h | h <;> simp [h, optTruthy]
    refine ⟨?_, ?_, ?_⟩
    · simp [createTerminal, hcap, hct, resetTerminalTimeout,
        mapSet_eq_append st.terminals newTid _ hfresh]
    · simp [createTerminal, hcap, hct, resetTerminalTimeout, mapGet_mapSet_self]
    · simp [createTerminal, hcap, hct, resetTerminalTimeout]
  · intro hge spawnOk
    simp [createTerminal, hge]

/-- C2, witness: with capacity 1, creating into an empty registry succeeds
and yields one session; creating into a full registry returns the unchanged
state plus exactly one capacity-failure response. -/
theorem registry_capacity_witness :
    (createTerminal emptyStateTM sampleCreateMsg ("terminal-9") 7 0 true).1.terminals.length
        = 1 ∧
    createTerminal fullStateTM sampleCreateMsg ("terminal-9") 7 0 true =
      (fullStateTM, [TMEvent.ws (.terminalCreated ("m1") false none
        (some (capacityError 1)))]) := by
  constructor
  · exact ((registry_capacity emptyStateTM sampleCreateMsg ("terminal-9") 7 0).1
      (by decide) (Or.inr rfl) (by decide)).1
  · exact (registry_capacity fullStateTM sampleCreateMsg ("terminal-9") 7 0).2
      (by decide) true

/-- C3: destroying a registered session (whose kill succeeds) removes it and
reports success; an immediately repeated destroy of the same id returns the
intermediate state completely unchanged together with exactly one
not-found failure response, whatever the kill oracle says. -/
theorem destroy_idempotent (st : TMState) (m1 m2 : DestroyMsg) (info : TerminalInfo)
    (hsame : m2.terminalId = m1.terminalId)
    (hkeys : (st.terminals.map Prod.fst).Nodup)
    (hget : mapGet st.terminals m1.terminalId = some info) :
    mapGet (handleDestroyTerminal st m1 true).1.terminals m1.terminalId = none ∧
    TMEvent.ws (.terminalDestroyed m1.msgId m1.terminalId true
        ("Terminal destroyed successfully")) ∈ (handleDestroyTerminal st m1 true).2 ∧
    (∀ killOk : Bool,
      handleDestroyTerminal (handleDestroyTerminal st m1 true).1 m2 killOk =
        ((handleDestroyTerminal st m1 true).1,
         [TMEvent.ws (.terminalDestroyed m2.msgId m2.terminalId false
            ("Terminal not found"))])) := by
  have hdel : mapGet (mapDelete st.terminals m1.terminalId) m1.terminalId = none :=
    mapGet_mapDelete_self st.terminals m1.terminalId hkeys
  refine ⟨?_, ?_, ?_⟩
  · simp [handleDestroyTerminal, hget, hdel]
  · simp [handleDestroyTerminal, hget]
  · intro killOk
    simp [handleDestroyTerminal, hget, hsame, hdel]

/-- C3, witness: destroy then destroy again on the sample one-session
manager. -/
theorem destroy_idempotent_witness :
    mapGet (handleDestroyTerminal sampleState ⟨"d1", "t1"⟩ true).1.terminals ("t1")
        = none ∧
    handleDestroyTerminal (handleDestroyTerminal sampleState ⟨"d1", "t1"⟩ true).1
        ⟨"d2", "t1"⟩ true =
      ((handleDestroyTerminal sampleState ⟨"d1", "t1"⟩ true).1,
       [TMEvent.ws (.terminalDestroyed ("d2") ("t1") false ("Terminal not found"))]) := by
  have h := destroy_idempotent sampleState ⟨"d1", "t1"⟩ ⟨"d2", "t1"⟩ sampleInfo
    rfl (by decide) (by decide)
  exact ⟨h.1, h.2.2 true⟩

/-- One `handoffToAgent` call on a registered session keeps the session
registered (with its agent name updated) and replaces its handoff record by
`extendRecord` of the record `currentRecord` describes. -/
theorem handoffToAgent_get (st : TMState) (tid a : String) (ctx : HandoffContext)
    (now : Nat) (info : TerminalInfo) (hget : mapGet st.terminals tid = some info) :
    mapGet (handoffToAgent st tid a ctx now).1.terminals tid =
        some ({ info with agentName := a }) ∧
    mapGet (handoffToAgent st tid a ctx now).1.agentHandoffs tid =
        some (extendRecord (currentRecord st tid info) (a, ctx, now)) := by
  cases h : mapGet st.agentHandoffs tid <;>
    simp [handoffToAgent, hget, h, currentRecord, extendRecord, mapGet_mapSet_self]

/-- Running a nonempty sequence of handoffs on a registered session produces
the record obtained by folding `extendRecord` from the lazily-initialised
record. -/
theorem runHandoffs_record (tid : String) (calls : List (String × HandoffContext × Nat)) :
    ∀ (st : TMState) (info : TerminalInfo), mapGet st.terminals tid = some info →
      calls ≠ [] →
      mapGet (runHandoffs st tid calls).agentHandoffs tid =
        some (calls.foldl extendRecord (currentRecord st tid info)) := by
  induction calls with
  | nil => intro st info _ h; exact absurd rfl h
  | cons c rest ih =>
      intro st info hget _
      obtain ⟨a, ctx, t⟩ := c
      have hstep := handoffToAgent_get st tid a ctx t info hget
      by_cases hrest : rest = []
      · subst hrest
        simpa [runHandoffs] using hstep.2
      · have hrec := ih (handoffToAgent st tid a ctx t).1
          ({ info with agentName := a }) hstep.1 hrest
        have hcr : currentRecord (handoffToAgent st tid a ctx t).1 tid
            ({ info with agentName := a }) =
            extendRecord (currentRecord st tid info) (a, ctx, t) := by
          simp [currentRecord, hstep.2]
        rw [runHandoffs, hrec, hcr, List.foldl_cons]

theorem foldl_extendRecord_length (calls : List (String × HandoffContext × Nat))
    (h : HandoffInfo) :
    (calls.foldl extendRecord h).history.length = h.history.length + calls.length := by
  induction calls generalizing h with
  | nil => simp
  | cons c rest ih =>
      obtain ⟨a, ctx, t⟩ := c
      rw [List.foldl_cons, ih]
      simp [extendRecord]
      omega

theorem foldl_extendRecord_last (calls : List (String × HandoffContext × Nat))
    (h : HandoffInfo) (hne : calls ≠ []) :
    ∃ tr : Transition, (calls.foldl extendRecord h).history.getLast? = some tr ∧
      tr.toAgent = (calls.foldl extendRecord h).currentAgent ∧
      tr.toAgent = (calls.getLast hne).1 := by
  induction calls generalizing h with
  | nil => exact absurd rfl hne
  | cons c rest ih =>
      obtain ⟨a, ctx, t⟩ := c
      by_cases hr : rest = []
      · subst hr
        refine ⟨{ timestamp := t, fromAgent := h.currentAgent, toAgent := a,
                  context := ctx, reason := jsOrOpt ctx.reason ("Manual handoff") },
          ?_, rfl, rfl⟩
        simp [extendRecord]
      · obtain ⟨tr, h1, h2, h3⟩ := ih (extendRecord h (a, ctx, t)) hr
        refine ⟨tr, by simpa [List.foldl_cons] using h1,
          by simpa [List.foldl_cons] using h2, ?_⟩
        rw [List.getLast_cons hr]
        exact h3

/-- C4: on a session with no handoff record yet, the lazily created record
starts at the session's original agent name with empty history, and after any
nonempty sequence of `n` handoff calls the record's history has length `n`,
its last transition's to-agent equals the record's current agent, and that
agent is the to-agent of the last call. -/
theorem handoff_record_invariant (st : TMState) (tid : String) (info : TerminalInfo)
    (calls : List (String × HandoffContext × Nat))
    (hget : mapGet st.terminals tid = some info)
    (hnorec : mapGet st.agentHandoffs tid = none)
    (hname : info.agentName ≠ "")
    (hne : calls ≠ []) :
    (currentRecord st tid info).currentAgent = info.agentName ∧
    (currentRecord st tid info).history = [] ∧
    ∃ h : HandoffInfo,
      mapGet (runHandoffs st tid calls).agentHandoffs tid = some h ∧
      h.history.length = calls.length ∧
      ∃ tr : Transition, h.history.getLast? = some tr ∧
        tr.toAgent = h.currentAgent ∧ tr.toAgent = (calls.getLast hne).1 := by
  refine ⟨by simp [currentRecord, hnorec, jsOr, hname], by simp [currentRecord, hnorec], ?_⟩
  refine ⟨_, runHandoffs_record tid calls st info hget hne, ?_, ?_⟩
  · rw [foldl_extendRecord_length]
    simp [currentRecord, hnorec]
  · exact foldl_extendRecord_last calls _ hne

/-- C4, witness: two handoffs on the sample session yield a record with two
transitions whose last to-agent `carol` is the record's current agent. -/
theorem handoff_record_invariant_witness :
    ∃ h : HandoffInfo,
      mapGet (runHandoffs sampleState ("t1") handoffCallsSample).agentHandoffs ("t1")
          = some h ∧
      h.history.length = 2 ∧
      ∃ tr : Transition, h.history.getLast? = some tr ∧
        tr.toAgent = h.currentAgent ∧ tr.toAgent = "carol" := by
  have hmain := handoff_record_invariant sampleState ("t1") sampleInfo
    handoffCallsSample (by decide) (by decide) (by decide) (by decide)
  obtain ⟨h, hh, hlen, tr, h1, h2, h3⟩ := hmain.2.2
  exact ⟨h, hh, hlen, tr, h1, h2, h3⟩

/-- `handoffToAgent` never touches the timer map and never creates or cancels
a timer. -/
theorem handoffToAgent_timeouts (st : TMState) (tid a : String) (ctx : HandoffContext)
    (now : Nat) :
    (handoffToAgent st tid a ctx now).1.terminalTimeouts = st.terminalTimeouts ∧
    (handoffToAgent st tid a ctx now).2.1.filter isTimerEvent = [] := by
  cases h : mapGet st.terminals tid
  · simp [handoffToAgent, h]
  · cases hm : ctx.message <;>
      simp [handoffToAgent, h, hm, isTimerEvent, apply_ite (List.filter isTimerEvent)]

/-- The pty `data` handler leaves the timer map untouched and emits no timer
event, whether or not the chunk triggers a handoff. -/
theorem onDataEvent_timeouts (st : TMState) (tid : String) (data : String) (now : Nat) :
    (onDataEvent st tid data now).1.terminalTimeouts = st.terminalTimeouts ∧
    (onDataEvent st tid data now).2.filter isTimerEvent = [] := by
  unfold onDataEvent
  cases hs : scanHandoffRequest data with
  | none =>
      cases hg : mapGet st.terminals tid <;> simp [hs, hg, isTimerEvent]
  | some p =>
      obtain ⟨name, m⟩ := p
      have hh := handoffToAgent_timeouts st tid name
        { reason := some ("Agent requested handoff"), message := some m } now
      cases hg : mapGet (handoffToAgent st tid name
          { reason := some ("Agent requested handoff"), message := some m } now).1.terminals tid <;>
        simp [hs, hg, hh.1, hh.2, isTimerEvent]

/-- C5, counterexample: on the sample session (pending timer `0`), receipt of
the output chunk `"hello"` updates the last-activity timestamp but leaves the
timer map exactly as it was and emits no timer event — the idle timer is not
reset by output. -/
theorem output_no_timer_reset_counterexample :
    (onDataEvent sampleState ("t1") ("hello") 5).1.terminalTimeouts =
        sampleState.terminalTimeouts ∧
    (onDataEvent sampleState ("t1") ("hello") 5).2.filter isTimerEvent = [] ∧
    (mapGet (onDataEvent sampleState ("t1") ("hello") 5).1.terminals ("t1")).map
        TerminalInfo.lastActivity = some 5 := by
  decide

/-- C5 (amended): a successful client write — `terminal-input` or
`terminal-command` — on a registered session resets its idle timer to a fresh
30-minute timer; receipt of process output updates the session's
last-activity timestamp and output buffer but leaves the timer map untouched
and creates no timer, so output alone cannot stave off eviction. -/
theorem activity_touch_behavior (st : TMState) (tid : String) (info : TerminalInfo)
    (data : String) (cmsg : CommandMsg) (now : Nat)
    (hget : mapGet st.terminals tid = some info)
    (hcm : cmsg.terminalId = tid) :
    mapGet (handleTerminalInput st tid data true).1.terminalTimeouts tid
        = some st.nextTimerId ∧
    TMEvent.setTimer st.nextTimerId (30 * 60 * 1000)
        ∈ (handleTerminalInput st tid data true).2 ∧
    mapGet (handleTerminalCommand st cmsg true).1.terminalTimeouts tid
        = some st.nextTimerId ∧
    TMEvent.setTimer st.nextTimerId (30 * 60 * 1000)
        ∈ (handleTerminalCommand st cmsg true).2 ∧
    (onDataEvent st tid data now).1.terminalTimeouts = st.terminalTimeouts ∧
    (onDataEvent st tid data now).2.filter isTimerEvent = [] := by
  subst hcm
  refine ⟨?_, ?_, ?_, ?_, (onDataEvent_timeouts st cmsg.terminalId data now).1,
    (onDataEvent_timeouts st cmsg.terminalId data now).2⟩ <;>
    simp [handleTerminalInput, handleTerminalCommand, hget,
      resetTerminalTimeout, mapGet_mapSet_self]

/-- C5, witness: a client write on the sample session installs the fresh
timer `1`; an output chunk leaves the timer map unchanged. -/
theorem activity_touch_behavior_witness :
    mapGet (handleTerminalInput sampleState ("t1") ("ls") true).1.terminalTimeouts ("t1")
        = some 1 ∧
    (onDataEvent sampleState ("t1") ("ls") 5).1.terminalTimeouts =
        sampleState.terminalTimeouts := by
  have h := activity_touch_behavior sampleState ("t1") sampleInfo ("ls")
    ⟨"c1", "t1", "ls"⟩ 5 (by decide) rfl
  exact ⟨h.1, h.2.2.2.2.1⟩

/-- C6, counterexample: for the chunk `"handoff-to:reviewer\n"` (free text
absent) the triggered transition's context message is the source's
`"No context provided"`, with a capital N, not the `"no context provided"`
the claim states. -/
theorem output_handoff_default_context_counterexample :
    scanHandoffRequest ("handoff-to:reviewer\n") =
        some ("reviewer", "No context provided") ∧
    (mapGet (onDataEvent sampleState ("t1") ("handoff-to:reviewer\n") 7).1.agentHandoffs
        ("t1")).map (fun h => h.history.map (fun tr => tr.context.message)) =
      some [some ("No context provided")] ∧
    ("No context provided" : String) ≠ "no context provided" := by
  decide

/-- C6 (amended): whenever the output scan finds the handoff pattern in a
chunk of a registered session, exactly one transition is appended to the
session's handoff record, with to-agent the captured name and context message
the captured free text — or `"No context provided"` (so capitalized) when the
free text is absent, the default being folded into `scanHandoffRequest`. -/
theorem output_handoff_scan (st : TMState) (tid : String) (info : TerminalInfo)
    (data : String) (name msg : String) (now : Nat)
    (hget : mapGet st.terminals tid = some info)
    (hscan : scanHandoffRequest data = some (name, msg)) :
    ∃ h : HandoffInfo,
      mapGet (onDataEvent st tid data now).1.agentHandoffs tid = some h ∧
      h.history.length = (currentRecord st tid info).history.length + 1 ∧
      h.currentAgent = name ∧
      h.history.getLast? = some
        { timestamp := now, fromAgent := (currentRecord st tid info).currentAgent,
          toAgent := name,
          context := { reason := some ("Agent requested handoff"), message := some msg },
          reason := "Agent requested handoff" } := by
  have hstep := handoffToAgent_get st tid name
    { reason := some ("Agent requested handoff"), message := some msg } now info hget
  refine ⟨extendRecord (currentRecord st tid info)
    (name, { reason := some ("Agent requested handoff"), message := some msg }, now),
    ?_, by simp [extendRecord], by simp [extendRecord], by simp [extendRecord, jsOrOpt, jsOr]⟩
  unfold onDataEvent
  rw [hscan]
  cases hg : mapGet (handoffToAgent st tid name
      { reason := some ("Agent requested handoff"), message := some msg } now).1.terminals tid <;>
    simp [hg, hstep.2]

/-- C6, witness: the scenario chunk `"handoff-to:reviewer please check PR\n"`
on the sample session appends exactly one transition, to-agent `reviewer`,
context message `please check PR`. -/
theorem output_handoff_scan_witness :
    scanHandoffRequest ("handoff-to:reviewer please check PR\n") =
        some ("reviewer", "please check PR") ∧
    ∃ h : HandoffInfo,
      mapGet (onDataEvent sampleState ("t1")
          ("handoff-to:reviewer please check PR\n") 7).1.agentHandoffs ("t1") = some h ∧
      h.history.length = 1 ∧
      h.currentAgent = "reviewer" ∧
      h.history.getLast? = some
        { timestamp := 7, fromAgent := "alice", toAgent := "reviewer",
          context := { reason := some ("Agent requested handoff"),
                       message := some ("please check PR") },
          reason := "Agent requested handoff" } := by
  refine ⟨by decide, ?_⟩
  have e1 : (currentRecord sampleState ("t1") sampleInfo).history.length = 0 := by decide
  have e2 : (currentRecord sampleState ("t1") sampleInfo).currentAgent = "alice" := by decide
  obtain ⟨h, hh, h1, h2, h3⟩ := output_handoff_scan sampleState ("t1") sampleInfo
    ("handoff-to:reviewer please check PR\n") ("reviewer") ("please check PR") 7
    (by decide) (by decide)
  rw [e2] at h3
  rw [e1] at h1
  exact ⟨h, hh, h1, h2, h3⟩

theorem isSome_mapSet {α : Type} (m : List (String × α)) (k k' : String) (v : α)
    (h : (mapGet m k').isSome) : (mapGet (mapSet m k v) k').isSome := by
  by_cases hk : k' = k
  · subst hk
    simp [mapGet_mapSet_self]
  · rw [mapGet_mapSet_ne m k k' v hk]
    exact h

/-- Updating a session entry in place preserves the timer/handoff ownership
invariant. -/
theorem ownedInv_mapSetTerminal (st : TMState) (tid : String) (info2 : TerminalInfo)
    (hinv : ownedInv st) :
    ownedInv { st with terminals := mapSet st.terminals tid info2 } := by
  intro k
  exact ⟨fun hk => isSome_mapSet _ _ _ _ ((hinv k).1 hk),
         fun hk => isSome_mapSet _ _ _ _ ((hinv k).2 hk)⟩

/-- Re-arming the idle timer of a registered session preserves the ownership
invariant. -/
theorem ownedInv_resetTimeout (st : TMState) (tid : String) (info : TerminalInfo)
    (hget : mapGet st.terminals tid = some info) (hinv : ownedInv st) :
    ownedInv (resetTerminalTimeout st tid).1 := by
  intro k
  unfold resetTerminalTimeout
  constructor <;> intro hk
  · by_cases hkt : k = tid
    · subst hkt
      simp [hget]
    · simp only at hk
      rw [mapGet_mapSet_ne _ _ _ _ hkt] at hk
      exact (hinv k).1 hk
  · exact (hinv k).2 hk

/-- Removing a session id from all three maps at once preserves the ownership
invariant (this is the destroy / exit / eviction clean-up shape). -/
theorem ownedInv_deleteAll (st : TMState) (tid : String) (hkeys : distinctKeys st)
    (hinv : ownedInv st) :
    ownedInv { st with
      terminals := mapDelete st.terminals tid,
      terminalTimeouts := mapDelete st.terminalTimeouts tid,
      agentHandoffs := mapDelete st.agentHandoffs tid } := by
  intro k
  constructor <;> intro hk <;> by_cases hkt : k = tid
  · subst hkt
    rw [show mapGet (mapDelete st.terminalTimeouts k) k = none from
      mapGet_mapDelete_self _ _ hkeys.2.1] at hk
    simp at hk
  · simp only at hk ⊢
    rw [mapGet_mapDelete_ne _ _ _ hkt] at hk
    rw [mapGet_mapDelete_ne _ _ _ hkt]
    exact (hinv k).1 hk
  · subst hkt
    rw [show mapGet (mapDelete st.agentHandoffs k) k = none from
      mapGet_mapDelete_self _ _ hkeys.2.2] at hk
    simp at hk
  · simp only at hk ⊢
    rw [mapGet_mapDelete_ne _ _ _ hkt] at hk
    rw [mapGet_mapDelete_ne _ _ _ hkt]
    exact (hinv k).2 hk

theorem createTerminal_preserves (st : TMState) (msg : CreateMsg) (newTid : String)
    (pid now : Nat) (spawnOk : Bool) :
    (∀ k, (mapGet st.terminals k).isSome →
      (mapGet (createTerminal st msg newTid pid now spawnOk).1.terminals k).isSome) ∧
    (ownedInv st → ownedInv (createTerminal st msg newTid pid now spawnOk).1) := by
  unfold createTerminal
  split_ifs with h1 h2 h3
  · exact ⟨fun k h => h, fun h => h⟩
  · exact ⟨fun k h => h, fun h => h⟩
  · exact ⟨fun k h => h, fun h => h⟩
  · simp only [resetTerminalTimeout]
    constructor
    · intro k h
      exact isSome_mapSet _ _ _ _ h
    · intro hinv k
      constructor <;> intro hk
      · by_cases hkt : k = newTid
        · subst hkt
          simp [mapGet_mapSet_self]
        · simp only at hk
          rw [mapGet_mapSet_ne _ _ _ _ hkt] at hk
          exact isSome_mapSet _ _ _ _ ((hinv k).1 hk)
      · exact isSome_mapSet _ _ _ _ ((hinv k).2 hk)

theorem handleTerminalCommand_preserves (st : TMState) (msg : CommandMsg) (writeOk : Bool) :
    (∀ k, (mapGet st.terminals k).isSome →
      (mapGet (handleTerminalCommand st msg writeOk).1.terminals k).isSome) ∧
    (ownedInv st → ownedInv (handleTerminalCommand st msg writeOk).1) := by
  cases hget : mapGet st.terminals msg.terminalId
  · simp only [handleTerminalCommand, hget]
    exact ⟨fun k h => h, fun h => h⟩
  · cases writeOk
    · simp only [handleTerminalCommand, hget]
      exact ⟨fun k h => h, fun h => h⟩
    · simp only [handleTerminalCommand, hget]
      refine ⟨fun k h => ?_, fun hinv => ownedInv_resetTimeout st msg.terminalId _ hget hinv⟩
      simpa [resetTerminalTimeout] using h

theorem handleTerminalInput_preserves (st : TMState) (tid data : String) (writeOk : Bool) :
    (∀ k, (mapGet st.terminals k).isSome →
      (mapGet (handleTerminalInput st tid data writeOk).1.terminals k).isSome) ∧
    (ownedInv st → ownedInv (handleTerminalInput st tid data writeOk).1) := by
  cases hget : mapGet st.terminals tid
  · simp only [handleTerminalInput, hget]
    exact ⟨fun k h => h, fun h => h⟩
  · cases writeOk
    · simp only [handleTerminalInput, hget]
      exact ⟨fun k h => h, fun h => h⟩
    · simp only [handleTerminalInput, hget]
      refine ⟨fun k h => ?_, fun hinv => ownedInv_resetTimeout st tid _ hget hinv⟩
      simpa [resetTerminalTimeout] using h

theorem handoffToAgent_preserves (st : TMState) (tid a : String) (ctx : HandoffContext)
    (now : Nat) :
    (∀ k, (mapGet st.terminals k).isSome →
      (mapGet (handoffToAgent st tid a ctx now).1.terminals k).isSome) ∧
    (ownedInv st → ownedInv (handoffToAgent st tid a ctx now).1) := by
  cases hget : mapGet st.terminals tid
  · simp only [handoffToAgent, hget]
    exact ⟨fun k h => h, fun h => h⟩
  · simp only [handoffToAgent, hget]
    constructor
    · intro k h
      exact isSome_mapSet _ _ _ _ h
    · intro hinv k
      constructor <;> intro hk
      · exact isSome_mapSet _ _ _ _ ((hinv k).1 hk)
      · by_cases hkt : k = tid
        · subst hkt
          simp [mapGet_mapSet_self]
        · simp only at hk
          rw [mapGet_mapSet_ne _ _ _ _ hkt] at hk
          exact isSome_mapSet _ _ _ _ ((hinv k).2 hk)

theorem onDataEvent_preserves (st : TMState) (tid data : String) (now : Nat) :
    (∀ k, (mapGet st.terminals k).isSome →
      (mapGet (onDataEvent st tid data now).1.terminals k).isSome) ∧
    (ownedInv st → ownedInv (onDataEvent st tid data now).1) := by
  unfold onDataEvent
  cases hs : scanHandoffRequest data with
  | none =>
      dsimp only
      cases hg : mapGet st.terminals tid with
      | none => exact ⟨fun k h => h, fun h => h⟩
      | some info =>
          dsimp only
          constructor
          · intro k h
            exact isSome_mapSet _ _ _ _ h
          · exact fun hinv => ownedInv_mapSetTerminal st tid _ hinv
  | some p =>
      obtain ⟨name, m⟩ := p
      dsimp only
      have hp := handoffToAgent_preserves st tid name
        { reason := some ("Agent requested handoff"), message := some m } now
      cases hg : mapGet (handoffToAgent st tid name
          { reason := some ("Agent requested handoff"), message := some m } now).1.terminals tid with
      | none => exact ⟨fun k h => hp.1 k h, fun hinv => hp.2 hinv⟩
      | some info =>
          dsimp only
          constructor
          · intro k h
            exact isSome_mapSet _ _ _ _ (hp.1 k h)
          · exact fun hinv => ownedInv_mapSetTerminal _ tid _ (hp.2 hinv)

/-- C7, counterexample: the eviction timer firing removes the sample session
from the registry although it is neither an explicit destroy call nor a
process exit event — eviction is a third removal path the claim omits. -/
theorem eviction_removes_session_counterexample :
    isDestroyOp (TMOp.evictionTimeout ("t1")) = false ∧
    isExitOp (TMOp.evictionTimeout ("t1")) = false ∧
    (mapGet sampleState.terminals ("t1")).isSome = true ∧
    mapGet (step sampleState (TMOp.evictionTimeout ("t1"))).1.terminals ("t1") = none := by
  decide

/-- C7 (amended): over the manager's whole interface, a session is removed
from the registry only by destroy, by its process's exit event, or by its
eviction timeout firing; each removal path also removes (and, where one is
still pending, cancels) the session's timer and discards its handoff record;
and every operation preserves the invariant that no timer entry or handoff
record outlives its registry entry. -/
theorem registry_removal_paths (st : TMState) (op : TMOp) (hkeys : distinctKeys st) :
    (isDestroyOp op = false → isExitOp op = false → isEvictionOp op = false →
      ∀ k, (mapGet st.terminals k).isSome → (mapGet (step st op).1.terminals k).isSome) ∧
    (ownedInv st → ownedInv (step st op).1) ∧
    (∀ m : DestroyMsg, op = TMOp.destroy m true →
      (mapGet st.terminals m.terminalId).isSome →
      mapGet (step st op).1.terminals m.terminalId = none ∧
      mapGet (step st op).1.terminalTimeouts m.terminalId = none ∧
      mapGet (step st op).1.agentHandoffs m.terminalId = none ∧
      (∀ t, mapGet st.terminalTimeouts m.terminalId = some t →
        TMEvent.clearTimer t ∈ (step st op).2)) ∧
    (∀ tid exitCode signal, op = TMOp.ptyExit tid exitCode signal →
      mapGet (step st op).1.terminals tid = none ∧
      mapGet (step st op).1.terminalTimeouts tid = none ∧
      mapGet (step st op).1.agentHandoffs tid = none ∧
      (∀ t, mapGet st.terminalTimeouts tid = some t →
        TMEvent.clearTimer t ∈ (step st op).2)) ∧
    (∀ tid, op = TMOp.evictionTimeout tid → (mapGet st.terminals tid).isSome →
      mapGet (step st op).1.terminals tid = none ∧
      mapGet (step st op).1.terminalTimeouts tid = none ∧
      mapGet (step st op).1.agentHandoffs tid = none) := by
  cases op with
  | create msg newTid pid now spawnOk =>
      exact ⟨fun _ _ _ => (createTerminal_preserves st msg newTid pid now spawnOk).1,
             (createTerminal_preserves st msg newTid pid now spawnOk).2,
             fun m h => by simp at h, fun tid c s h => by simp at h,
             fun tid h => by simp at h⟩
  | command msg writeOk =>
      exact ⟨fun _ _ _ => (handleTerminalCommand_preserves st msg writeOk).1,
             (handleTerminalCommand_preserves st msg writeOk).2,
             fun m h => by simp at h, fun tid c s h => by simp at h,
             fun tid h => by simp at h⟩
  | input tid data writeOk =>
      exact ⟨fun _ _ _ => (handleTerminalInput_preserves st tid data writeOk).1,
             (handleTerminalInput_preserves st tid data writeOk).2,
             fun m h => by simp at h, fun tid' c s h => by simp at h,
             fun tid' h => by simp at h⟩
  | resize tid cols rows =>
      have hst : (handleTerminalResize st tid cols rows).1 = st := by
        cases hg : mapGet st.terminals tid <;> simp [handleTerminalResize, hg]
      exact ⟨fun _ _ _ k h => by rw [step, hst]; exact h,
             fun hinv => by rw [step, hst]; exact hinv,
             fun m h => by simp at h, fun tid' c s h => by simp at h,
             fun tid' h => by simp at h⟩
  | listTerminals msgId =>
      exact ⟨fun _ _ _ k h => h, fun hinv => hinv,
             fun m h => by simp at h, fun tid c s h => by simp at h,
             fun tid h => by simp at h⟩
  | handoff tid a ctx now =>
      exact ⟨fun _ _ _ => (handoffToAgent_preserves st tid a ctx now).1,
             (handoffToAgent_preserves st tid a ctx now).2,
             fun m h => by simp at h, fun tid' c s h => by simp at h,
             fun tid' h => by simp at h⟩
  | ptyData tid data now =>
      exact ⟨fun _ _ _ => (onDataEvent_preserves st tid data now).1,
             (onDataEvent_preserves st tid data now).2,
             fun m h => by simp at h, fun tid' c s h => by simp at h,
             fun tid' h => by simp at h⟩
  | destroy msg killOk =>
      refine ⟨fun hfalse _ _ => by simp [isDestroyOp] at hfalse, ?_, ?_,
              fun tid c s h => by simp at h, fun tid h => by simp at h⟩
      · intro hinv
        cases hget : mapGet st.terminals msg.terminalId with
        | none => simpa [step, handleDestroyTerminal, hget] using hinv
        | some info =>
            cases killOk with
            | false => simpa [step, handleDestroyTerminal, hget] using hinv
            | true =>
                have := ownedInv_deleteAll st msg.terminalId hkeys hinv
                simpa [step, handleDestroyTerminal, hget] using this
      · intro m hEq hpres
        injection hEq with h1 h2
        subst h1
        subst h2
        obtain ⟨info, hget⟩ := Option.isSome_iff_exists.mp hpres
        refine ⟨?_, ?_, ?_, ?_⟩
        · simp [step, handleDestroyTerminal, hget, mapGet_mapDelete_self _ _ hkeys.1]
        · simp [step, handleDestroyTerminal, hget, mapGet_mapDelete_self _ _ hkeys.2.1]
        · simp [step, handleDestroyTerminal, hget, mapGet_mapDelete_self _ _ hkeys.2.2]
        · intro t ht
          simp [step, handleDestroyTerminal, hget, ht]
  | ptyExit tid exitCode signal =>
      refine ⟨fun _ hfalse _ => by simp [isExitOp] at hfalse, ?_,
              fun m h => by simp at h, ?_, fun tid' h => by simp at h⟩
      · intro hinv
        have := ownedInv_deleteAll st tid hkeys hinv
        simpa [step, onExitEvent] using this
      · intro tid' c' s' hEq
        injection hEq with h1 h2 h3
        subst h1
        subst h2
        subst h3
        refine ⟨?_, ?_, ?_, ?_⟩
        · simp [step, onExitEvent, mapGet_mapDelete_self _ _ hkeys.1]
        · simp [step, onExitEvent, mapGet_mapDelete_self _ _ hkeys.2.1]
        · simp [step, onExitEvent, mapGet_mapDelete_self _ _ hkeys.2.2]
        · intro t ht
          simp [step, onExitEvent, ht]
  | evictionTimeout tid =>
      refine ⟨fun _ _ hfalse => by simp [isEvictionOp] at hfalse, ?_,
              fun m h => by simp at h, fun tid' c s h => by simp at h, ?_⟩
      · intro hinv
        cases hget : mapGet st.terminals tid with
        | none => simpa [step, timeoutFire, hget] using hinv
        | some info =>
            have := ownedInv_deleteAll st tid hkeys hinv
            simpa [step, timeoutFire, hget] using this
      · intro tid' hEq hpres
        injection hEq with h1
        subst h1
        obtain ⟨info, hget⟩ := Option.isSome_iff_exists.mp hpres
        refine ⟨?_, ?_, ?_⟩
        · simp [step, timeoutFire, hget, mapGet_mapDelete_self _ _ hkeys.1]
        · simp [step, timeoutFire, hget, mapGet_mapDelete_self _ _ hkeys.2.1]
        · simp [step, timeoutFire, hget, mapGet_mapDelete_self _ _ hkeys.2.2]

/-- C7, witness: explicit destroy of the sample session removes its registry
entry, timer entry and handoff record, and cancels the pending timer `0`. -/
theorem registry_removal_paths_witness :
    mapGet (step sampleState (TMOp.destroy ⟨"d1", "t1"⟩ true)).1.terminals ("t1") = none ∧
    mapGet (step sampleState (TMOp.destroy ⟨"d1", "t1"⟩ true)).1.terminalTimeouts ("t1")
        = none ∧
    mapGet (step sampleState (TMOp.destroy ⟨"d1", "t1"⟩ true)).1.agentHandoffs ("t1")
        = none ∧
    TMEvent.clearTimer 0 ∈ (step sampleState (TMOp.destroy ⟨"d1", "t1"⟩ true)).2 := by
  have h := (registry_removal_paths sampleState (TMOp.destroy ⟨"d1", "t1"⟩ true)
    ⟨by decide, by decide, by decide⟩).2.2.1 ⟨"d1", "t1"⟩ rfl (by decide)
  exact ⟨h.1, h.2.1, h.2.2.1, h.2.2.2 0 (by decide)⟩

end TerminalManager

namespace MessageRouter

/-- A middleware chain in which every member invokes its continuation lets
the dispatch through unchanged. -/
theorem runChain_all_next (mws : List MWB) (dispatch : List GWEvent)
    (h : ∀ mw ∈ mws, mw = MWB.invokesNext) :
    runChain mws dispatch = .completed dispatch := by
  induction mws with
  | nil => rfl
  | cons m rest ih =>
      have hm := h m (List.mem_cons_self m rest)
      subst hm
      exact ih fun mw hmw => h mw (List.mem_cons_of_mem _ hmw)

/-- `handleMessage` never mutates the router state. -/
theorem handleMessage_router (parse : String → Option String) (r : Router)
    (raw : String) : (handleMessage parse r raw).1 = r := by
  unfold handleMessage
  cases hp : parse raw with
  | none => rfl
  | some t =>
      cases hc : runChain r.middleware (routeMessage r t) <;> simp [hc]

/-- C9: a frame that fails to parse is answered with exactly one structured
error, the connection is not closed, and every subsequent frame is handled
exactly as it would have been without the malformed frame; a frame that
parses to a type with no registered handler (with a pass-through middleware
chain) is answered with exactly one unknown-message-type error and the
connection likewise stays open. -/
theorem gateway_frame_handling (parse : String → Option String) (r : Router)
    (raw : String) :
    (parse raw = none →
      handleMessage parse r raw = (r, [GWEvent.sendError ("Invalid message format")]) ∧
      GWEvent.close ∉ (handleMessage parse r raw).2 ∧
      ∀ frames : List String,
        (handleFrames parse r (raw :: frames)).2 =
          [GWEvent.sendError ("Invalid message format")] ::
            (handleFrames parse r frames).2) ∧
    (∀ msgType, parse raw = some msgType →
      mapGet r.handlers msgType = none →
      (∀ mw ∈ r.middleware, mw = MWB.invokesNext) →
      handleMessage parse r raw =
        (r, [GWEvent.sendError ("Unknown message type: " ++ msgType)]) ∧
      GWEvent.close ∉ (handleMessage parse r raw).2) := by
  constructor
  · intro hp
    have hm : handleMessage parse r raw =
        (r, [GWEvent.sendError ("Invalid message format")]) := by
      simp [handleMessage, hp]
    refine ⟨hm, by rw [hm]; simp, ?_⟩
    intro frames
    simp [handleFrames, hm]
  · intro msgType hp hnone hmw
    have hm : handleMessage parse r raw =
        (r, [GWEvent.sendError ("Unknown message type: " ++ msgType)]) := by
      unfold handleMessage
      rw [hp]
      dsimp only
      rw [runChain_all_next r.middleware _ hmw]
      simp [routeMessage, hnone]
    exact ⟨hm, by rw [hm]; simp⟩

/-- C9, witness: on a handlerless router, the frame `"not json"` draws one
malformed-message error and leaves the next frame `"good"` handled as usual,
which in turn draws one unknown-message-type error; neither closes the
connection. -/
theorem gateway_frame_handling_witness :
    handleMessage sampleParse sampleRouter ("not json") =
      (sampleRouter, [GWEvent.sendError ("Invalid message format")]) ∧
    (handleFrames sampleParse sampleRouter ["not json", "good"]).2 =
      [[GWEvent.sendError ("Invalid message format")],
       [GWEvent.sendError ("Unknown message type: " ++ "ping")]] ∧
    handleMessage sampleParse sampleRouter ("good") =
      (sampleRouter, [GWEvent.sendError ("Unknown message type: " ++ "ping")]) := by
  have h1 := (gateway_frame_handling sampleParse sampleRouter ("not json")).1 (by decide)
  have h2 := (gateway_frame_handling sampleParse sampleRouter ("good")).2 ("ping")
    (by decide) (by decide) (by intro mw hmw; simp [sampleRouter] at hmw)
  refine ⟨h1.1, ?_, h2.1⟩
  rw [h1.2.2 ["good"]]
  simp [handleFrames, h2.1]

end MessageRouter

end XtermOrch

